import Mathlib

/-!
Verification of the rust-vst (vst2) ABI bridge, embedded shallowly from
`src/src/lib.rs`.  The crate's sibling modules (`api`, `host`, `enums`,
`plugin`, `buffer`, `interfaces`) are not part of the provided sources, so
the pieces of them that the claims need are modelled from the specification
and are marked as such in their doc comments.  Everything else is a direct
translation of `lib.rs`.
-/

/-- Modelled from the spec: `plugin::Category` (module `plugin` is missing
from the sources).  The spec only distinguishes the synth category from the
rest, so the remaining categories are collapsed into `Effect` and `Other`. -/
inductive Category
  | Effect
  | Synth
  | Other
deriving DecidableEq

/-- Modelled from the spec: `plugin::Info` (module `plugin` is missing from
the sources).  Field names and types follow their uses in `lib.rs::main`
and the crate's tests: `presets`, `parameters`, `inputs`, `outputs`,
`unique_id`, `version`, `initial_delay` are `i32`; `preset_chunks` and
`f64_precision` are `bool`; `category` selects the synth flag. -/
structure Info where
  name : String
  vendor : String
  presets : Int
  parameters : Int
  inputs : Int
  outputs : Int
  unique_id : Int
  version : Int
  category : Category
  initial_delay : Int
  preset_chunks : Bool
  f64_precision : Bool
deriving DecidableEq

/-- Modelled from the spec: `enums::Supported`, the tri-state answer to a
capability query ("maybe/yes/no"). -/
inductive Supported
  | Yes
  | Maybe
  | No
deriving DecidableEq

/-- Modelled from the spec: `enums::CanDo`, the vocabulary of capability
queries.  The concrete variant list lives in the missing `enums` module;
a representative closed set plus a catch-all carrying the raw query string
is used, which is enough because the default answer ignores the query. -/
inductive CanDo
  | SendEvents
  | ReceiveEvents
  | Bypass
  | Offline
  | Other (query : String)
deriving DecidableEq

/-- Modelled from the spec: `enums::flags::plugin::HAS_EDITOR` (editor
presence bit); bit positions follow the external VST2 protocol. -/
def HAS_EDITOR : Nat := 1 <<< 0

/-- Modelled from the spec: replace-processing support bit
(`enums::flags::plugin::CAN_REPLACING`). -/
def CAN_REPLACING : Nat := 1 <<< 4

/-- Modelled from the spec: chunked-preset support bit
(`enums::flags::plugin::PROGRAM_CHUNKS`). -/
def PROGRAM_CHUNKS : Nat := 1 <<< 5

/-- Modelled from the spec: synth-category bit
(`enums::flags::plugin::IS_SYNTH`). -/
def IS_SYNTH : Nat := 1 <<< 8

/-- Modelled from the spec: double-precision replace-processing bit
(`enums::flags::plugin::CAN_DOUBLE_REPLACING`). -/
def CAN_DOUBLE_REPLACING : Nat := 1 <<< 12

/-- `lib.rs` 78-81: VST plugins are identified by a magic number built from
the four ASCII characters V, s, t, P (`('V' as i32) << 24 | ('s' as i32)
<< 16 | ('t' as i32) << 8 | ('P' as i32)`).  All shifts stay below `2^31`,
so the `i32` arithmetic has no wraparound and is computed in `Nat`. -/
def VST_MAGIC : Int :=
  (('V'.toNat <<< 24) ||| ('s'.toNat <<< 16) ||| ('t'.toNat <<< 8) ||| ('P'.toNat <<< 0) : Nat)

/-- Modelled from the spec: `api::HostCallback` (module `api` is missing
from the sources), the host's callback function pointer.  It is abstracted
to the numeric answer it gives to each numeric query opcode; the payload
arguments are omitted because no modelled query uses them. -/
def HostCallback : Type := Int → Int

/-- Modelled from the spec: the opcode of the host's protocol-version query
(numeric value from the external VST2 protocol). -/
def audioMasterVersion : Int := 1

/-- Modelled from the spec: `host::Host` (module `host` is missing from the
sources) pairs the host's callback with a back-reference to the plugin's
own descriptor address, abstracted to a bare number. -/
structure Host where
  callback : HostCallback
  effect : Nat

/-- Modelled from the spec: `Host::wrap(callback, effect)` builds the host
handle from the callback and the descriptor address. -/
def Host.wrap (callback : HostCallback) (effect : Nat) : Host :=
  { callback := callback, effect := effect }

/-- Modelled from the spec: `Host::vst_version()` asks the host's callback
for its protocol version. -/
def Host.vst_version (h : Host) : Int :=
  h.callback audioMasterVersion

/-- Modelled from the spec: the `Editor` trait object (module `editor` is
missing from the sources); only its presence or absence is ever observed. -/
structure Editor

/-- The method table of the `Vst` trait (`lib.rs` 192-366) over a plugin
state type `P`.  `&self` methods are `P → ...`, `&mut self` methods return
the updated state.  `f32` values are modelled as rationals (every finite
`f32` is one); raw byte payloads as `List Nat`.  `get_info` has no default
and must be supplied; the channel-info conveniences are not modelled as no
claim touches them. -/
structure VstClass (P : Type) where
  new : Host → P
  get_info : P → Info
  init : P → P
  change_preset : P → Int → P
  get_preset_num : P → Int
  set_preset_name : P → String → P
  get_preset_name : P → Int → String
  get_parameter_label : P → Int → String
  get_parameter_text : P → Int → String
  get_parameter_name : P → Int → String
  get_parameter : P → Int → ℚ
  set_parameter : P → Int → ℚ → P
  can_be_automated : P → Int → Bool
  string_to_parameter : P → Int → String → Bool
  sample_rate_changed : P → ℚ → P
  block_size_changed : P → Int → P
  on_resume : P → P
  on_suspend : P → P
  vendor_specific : P → Int → Int → ℚ → P
  can_do : P → CanDo → Supported
  get_tail_size : P → Int
  get_editor : P → Option Editor
  get_preset_data : P → List Nat
  get_bank_data : P → List Nat
  load_preset_data : P → List Nat → P
  load_bank_data : P → List Nat → P

/-- `lib.rs` 236-238: the default `Vst::new` ignores the host handle and
returns `Default::default()`. -/
def Vst.new (P : Type) [Inhabited P] (_host : Host) : P :=
  default

/-- Truncating division of a rational, `q.num / q.den`; equal to the floor
for the nonnegative arguments it is applied to. -/
def ratTrunc (q : ℚ) : Int :=
  q.num / (q.den : Int)

/-- Embedding of Rust's fixed-width three-decimal formatting `{:.3}` used
by the default `get_parameter_text` (`lib.rs` 261-263); ties round to even
as in Rust's float formatting (immaterial for the verified claims). -/
def formatFixed3 (q : ℚ) : String :=
  let a : ℚ := if q < 0 then -q else q
  let x : ℚ := a * 1000
  let fl : Int := ratTrunc x
  let fr : ℚ := x - (fl : ℚ)
  let m : Int :=
    if fr > 1/2 then fl + 1
    else if fr < 1/2 then fl
    else if fl % 2 = 0 then fl else fl + 1
  let mn : Nat := m.toNat
  let ip : Nat := mn / 1000
  let fp : Nat := mn % 1000
  let fps : String := toString fp
  let pad : String := String.mk (List.replicate (3 - fps.length) '0')
  (if q < 0 then "-" else "") ++ toString ip ++ "." ++ pad ++ fps

/-- `lib.rs` 261-263: the default body of `get_parameter_text`, formatting
`self.get_parameter(index)` to three decimals; parameterized by the
(possibly overridden) `get_parameter` it calls on `self`. -/
def default_get_parameter_text {P : Type} (get_parameter : P → Int → ℚ)
    (p : P) (index : Int) : String :=
  formatFixed3 (get_parameter p index)

/-- The `Vst` trait with every defaultable method left at its default body
(`lib.rs` 236-365) and `get_info` returning the given `info`:
`new` is `Default::default()`, state mutators are no-ops, numeric getters
return 0, string getters return `""` (or `"Param {index}"`), `can_do`
answers `Maybe`, `get_editor` returns `None`, chunk getters return empty
data. -/
def defaultVst (P : Type) [Inhabited P] (info : Info) : VstClass P :=
  let g : P → Int → ℚ := fun _ _ => 0
  { new := Vst.new P
    get_info := fun _ => info
    init := fun p => p
    change_preset := fun p _ => p
    get_preset_num := fun _ => 0
    set_preset_name := fun p _ => p
    get_preset_name := fun _ _ => ""
    get_parameter_label := fun _ _ => ""
    get_parameter_text := default_get_parameter_text g
    get_parameter_name := fun _ index => "Param " ++ toString index
    get_parameter := g
    set_parameter := fun p _ _ => p
    can_be_automated := fun _ _ => false
    string_to_parameter := fun _ _ _ => false
    sample_rate_changed := fun p _ => p
    block_size_changed := fun p _ => p
    on_resume := fun p => p
    on_suspend := fun p => p
    vendor_specific := fun p _ _ _ => p
    can_do := fun _ _ => Supported.Maybe
    get_tail_size := fun _ => 0
    get_editor := fun _ => none
    get_preset_data := fun _ => []
    get_bank_data := fun _ => []
    load_preset_data := fun p _ => p
    load_bank_data := fun p _ => p }

/-- Modelled from the spec: the function pointers `main` installs into the
descriptor's table (`interfaces` module is missing from the sources); only
their identity is observable. -/
inductive FnPtr
  | dispatch
  | process_deprecated
  | set_parameter
  | get_parameter
  | process_replacing
  | process_replacing_f64
  | null
deriving DecidableEq

/-- Modelled from the spec: `api::AEffect` (module `api` is missing from
the sources), the fixed-layout descriptor, with the fields `main` writes
(`lib.rs` 128-183) and the tests read.  `i32`/`isize` fields are `Int`
(all written values are small, no wraparound occurs), the flag word is a
`Nat` bit-set, pointers are `Option Nat` (`none` = null), and the trailing
56-byte reserved region is a list of byte values. -/
structure AEffect where
  magic : Int
  dispatcher : FnPtr
  _process : FnPtr
  setParameter : FnPtr
  getParameter : FnPtr
  numPrograms : Int
  numParams : Int
  numInputs : Int
  numOutputs : Int
  flags : Nat
  reserved1 : Int
  reserved2 : Int
  initialDelay : Int
  _realQualities : Int
  _offQualities : Int
  _ioRatio : ℚ
  object : Option Nat
  user : Option Nat
  uniqueId : Int
  version : Int
  processReplacing : FnPtr
  processReplacingF64 : FnPtr
  future : List Nat
deriving DecidableEq

/-- Heap cells allocated by `main`: the boxed `AEffect`, the outer
`Box<Box<Vst>>` wrapper cell, and the inner boxed plugin object. -/
inductive Alloc
  | effectCell
  | wrapperCell
  | pluginCell
deriving DecidableEq

/-- Result of `main`: the returned descriptor (`none` = null pointer), the
heap cells still allocated when `main` returns, and the plugin object if
one was ever constructed. -/
structure MainResult (P : Type) where
  ret : Option AEffect
  live : List Alloc
  constructed : Option P

/-- `lib.rs` 112-185: `main::<T>(callback)` (named here after the exported symbol `VSTPluginMain`, which directly invokes it; Lean reserves the name `main`).  A zeroed `AEffect` box is
allocated and transmuted to a raw pointer first; the host handle wraps the
callback and that address; if the host reports protocol version 0 the
function returns null (the effect cell stays allocated — the source frees
nothing on this path); otherwise the plugin is constructed with
`T::new(host)`, its `Info` is read, every descriptor field is populated,
the plugin is boxed into the wrapper stored in `object`, and the
descriptor address is returned. -/
def VSTPluginMain {P : Type} (V : VstClass P) (callback : HostCallback) : MainResult P :=
  let live : List Alloc := [Alloc.effectCell]
  let host : Host := Host.wrap callback 0
  if Host.vst_version host = 0 then
    { ret := none, live := live, constructed := none }
  else
    let vst : P := V.new host
    let info : Info := V.get_info vst
    let effect : AEffect :=
      { magic := VST_MAGIC
        dispatcher := FnPtr.dispatch
        _process := FnPtr.process_deprecated
        setParameter := FnPtr.set_parameter
        getParameter := FnPtr.get_parameter
        numPrograms := info.presets
        numParams := info.parameters
        numInputs := info.inputs
        numOutputs := info.outputs
        flags :=
          (let flag := CAN_REPLACING
           let flag := if info.f64_precision then flag ||| CAN_DOUBLE_REPLACING else flag
           let flag := if (V.get_editor vst).isSome then flag ||| HAS_EDITOR else flag
           let flag := if info.preset_chunks then flag ||| PROGRAM_CHUNKS else flag
           let flag := match info.category with
             | Category.Synth => flag ||| IS_SYNTH
             | _ => flag
           flag)
        reserved1 := 0
        reserved2 := 0
        initialDelay := info.initial_delay
        _realQualities := 0
        _offQualities := 0
        _ioRatio := 0
        object := some 1
        user := none
        uniqueId := info.unique_id
        version := info.version
        processReplacing := FnPtr.process_replacing
        processReplacingF64 := FnPtr.process_replacing_f64
        future := List.replicate 56 0 }
    { ret := some effect
      live := live ++ [Alloc.pluginCell, Alloc.wrapperCell]
      constructed := some vst }

/-- Modelled from the spec: `enums::OpCode` (module `enums` is missing from
the sources), the closed enumeration of recognized operation kinds listed
in spec section 3 (initialize, terminate, preset get/set and name, the
parameter queries, sample rate, block size, suspend/resume, the editor
operations, chunk get/set, vendor-specific, capability query, tail size). -/
inductive OpCode
  | Open
  | Close
  | SetProgram
  | GetProgram
  | SetProgramName
  | GetProgramName
  | GetParamLabel
  | GetParamDisplay
  | GetParamName
  | SetSampleRate
  | SetBlockSize
  | MainsChanged
  | EditGetRect
  | EditOpen
  | EditClose
  | EditIdle
  | GetChunk
  | SetChunk
  | CanBeAutomated
  | StringToParameter
  | VendorSpecific
  | CanDo
  | GetTailSize
deriving DecidableEq

/-- Modelled from the spec: the numeric decoding of host opcodes into the
recognized enumeration; values follow the external VST2 protocol (the spec
leaves them to the protocol), every other value is unrecognized. -/
def decode (opcode : Int) : Option OpCode :=
  if opcode = 0 then some OpCode.Open
  else if opcode = 1 then some OpCode.Close
  else if opcode = 2 then some OpCode.SetProgram
  else if opcode = 3 then some OpCode.GetProgram
  else if opcode = 4 then some OpCode.SetProgramName
  else if opcode = 5 then some OpCode.GetProgramName
  else if opcode = 6 then some OpCode.GetParamLabel
  else if opcode = 7 then some OpCode.GetParamDisplay
  else if opcode = 8 then some OpCode.GetParamName
  else if opcode = 10 then some OpCode.SetSampleRate
  else if opcode = 11 then some OpCode.SetBlockSize
  else if opcode = 12 then some OpCode.MainsChanged
  else if opcode = 13 then some OpCode.EditGetRect
  else if opcode = 14 then some OpCode.EditOpen
  else if opcode = 15 then some OpCode.EditClose
  else if opcode = 19 then some OpCode.EditIdle
  else if opcode = 23 then some OpCode.GetChunk
  else if opcode = 24 then some OpCode.SetChunk
  else if opcode = 26 then some OpCode.CanBeAutomated
  else if opcode = 27 then some OpCode.StringToParameter
  else if opcode = 50 then some OpCode.VendorSpecific
  else if opcode = 51 then some OpCode.CanDo
  else if opcode = 52 then some OpCode.GetTailSize
  else none

/-- Observable events of one dispatcher call: which plugin method ran, and
the teardown of the plugin object (its destructor / author teardown). -/
inductive Event
  | methodCall (name : String)
  | teardown
deriving DecidableEq

/-- The live state behind a descriptor: the descriptor record and the
plugin object reached through its opaque pointer. -/
structure DispatchState (P : Type) where
  effect : AEffect
  plugin : P

/-- Modelled from the spec: the reinterpretation of a tri-state capability
answer into the host's small signed range (yes 1, maybe 0, no -1). -/
def supportedToInt : Supported → Int
  | Supported.Yes => 1
  | Supported.Maybe => 0
  | Supported.No => -1

/-- Raw byte payload read as a string (the dispatcher's view of a
host-supplied text buffer). -/
def bytesToString (payload : List Nat) : String :=
  String.mk (payload.map Char.ofNat)

/-- Modelled from the spec: parsing of a capability-query string into the
`CanDo` vocabulary; unknown queries are carried verbatim. -/
def parseCanDo (s : String) : CanDo :=
  if s = "sendVstEvents" then CanDo.SendEvents
  else if s = "receiveVstEvents" then CanDo.ReceiveEvents
  else if s = "bypass" then CanDo.Bypass
  else if s = "offline" then CanDo.Offline
  else CanDo.Other s

/-- Modelled from the spec: `interfaces::dispatch` (module `interfaces` is
missing from the sources), the single opcode entry point of spec section
4.2.  It decodes the opcode; an unrecognized opcode returns 0 without
calling into plugin code; the terminate opcode (`Close`) runs the teardown
sequence — plugin destructor, wrapper and descriptor freed, modelled by
the `none` successor state — and returns 0; every other recognized opcode
invokes exactly the corresponding plugin method (string results are copied
into the host's buffer, outside the model; booleans become 0/1; tri-state
answers become the small signed range).  The result is the returned
integer, the surviving state (`none` after terminate), and the events of
the call in order. -/
def dispatch {P : Type} (V : VstClass P) (s : DispatchState P)
    (opcode index value : Int) (opt : ℚ) (payload : List Nat) :
    Int × Option (DispatchState P) × List Event :=
  match decode opcode with
  | none => (0, some s, [])
  | some OpCode.Open =>
      (0, some { s with plugin := V.init s.plugin }, [Event.methodCall "init"])
  | some OpCode.Close => (0, none, [Event.teardown])
  | some OpCode.SetProgram =>
      (0, some { s with plugin := V.change_preset s.plugin value },
       [Event.methodCall "change_preset"])
  | some OpCode.GetProgram =>
      (V.get_preset_num s.plugin, some s, [Event.methodCall "get_preset_num"])
  | some OpCode.SetProgramName =>
      (0, some { s with plugin := V.set_preset_name s.plugin (bytesToString payload) },
       [Event.methodCall "set_preset_name"])
  | some OpCode.GetProgramName =>
      (0, some s, [Event.methodCall "get_preset_name"])
  | some OpCode.GetParamLabel =>
      (0, some s, [Event.methodCall "get_parameter_label"])
  | some OpCode.GetParamDisplay =>
      (0, some s, [Event.methodCall "get_parameter_text"])
  | some OpCode.GetParamName =>
      (0, some s, [Event.methodCall "get_parameter_name"])
  | some OpCode.SetSampleRate =>
      (0, some { s with plugin := V.sample_rate_changed s.plugin opt },
       [Event.methodCall "sample_rate_changed"])
  | some OpCode.SetBlockSize =>
      (0, some { s with plugin := V.block_size_changed s.plugin value },
       [Event.methodCall "block_size_changed"])
  | some OpCode.MainsChanged =>
      if value = 0 then
        (0, some { s with plugin := V.on_suspend s.plugin }, [Event.methodCall "on_suspend"])
      else
        (0, some { s with plugin := V.on_resume s.plugin }, [Event.methodCall "on_resume"])
  | some OpCode.EditGetRect => (0, some s, [Event.methodCall "get_editor"])
  | some OpCode.EditOpen => (0, some s, [Event.methodCall "get_editor"])
  | some OpCode.EditClose => (0, some s, [Event.methodCall "get_editor"])
  | some OpCode.EditIdle => (0, some s, [Event.methodCall "get_editor"])
  | some OpCode.GetChunk =>
      (Int.ofNat (V.get_preset_data s.plugin).length, some s,
       [Event.methodCall "get_preset_data"])
  | some OpCode.SetChunk =>
      (0, some { s with plugin := V.load_preset_data s.plugin payload },
       [Event.methodCall "load_preset_data"])
  | some OpCode.CanBeAutomated =>
      (if V.can_be_automated s.plugin index then 1 else 0, some s,
       [Event.methodCall "can_be_automated"])
  | some OpCode.StringToParameter =>
      (if V.string_to_parameter s.plugin index (bytesToString payload) then 1 else 0,
       some s, [Event.methodCall "string_to_parameter"])
  | some OpCode.VendorSpecific =>
      (0, some { s with plugin := V.vendor_specific s.plugin index value opt },
       [Event.methodCall "vendor_specific"])
  | some OpCode.CanDo =>
      (supportedToInt (V.can_do s.plugin (parseCanDo (bytesToString payload))),
       some s, [Event.methodCall "can_do"])
  | some OpCode.GetTailSize =>
      (V.get_tail_size s.plugin, some s, [Event.methodCall "get_tail_size"])

/-- Modelled from the spec: `buffer::AudioBuffer` (module `buffer` is
missing from the sources): the per-call view over the host's channel
memory, as the list of input channels and the list of output channels,
each channel a list of samples. -/
structure AudioBuffer (α : Type) where
  inputs : List (List α)
  outputs : List (List α)

/-- Modelled from the spec: `AudioBuffer::zip` pairs input channel `i`
with output channel `i` (spec section 4.3). -/
def AudioBuffer.zip {α : Type} (b : AudioBuffer α) : List (List α × List α) :=
  b.inputs.zip b.outputs

/-- The inner loop of the default processing body (`lib.rs` 314-318):
`for (in_frame, out_frame) in input.zip(output) { *out_frame = *in_frame }`
— the state of the output channel afterwards: each zipped slot holds the
input sample, slots beyond the input's length are untouched. -/
def copyFrames {α : Type} (input output : List α) : List α :=
  (input.zip output).map Prod.fst ++ output.drop input.length

/-- The default processing body (`lib.rs` 312-331), shared verbatim by both
precisions: for each zipped (input, output) channel pair copy the input
into the output; output channels beyond the zipped pairs are untouched.
The value is the state of all output channels after the call. -/
def processDefault {α : Type} (b : AudioBuffer α) : List (List α) :=
  b.zip.map (fun io => copyFrames io.1 io.2) ++ b.outputs.drop b.inputs.length

/-- Single-precision samples; identity copying is value-agnostic, so `f32`
values are modelled as rationals. -/
abbrev F32 := ℚ

/-- Double-precision samples, modelled like `F32`. -/
abbrev F64 := ℚ

/-- `lib.rs` 312-320: the default `Vst::process` for `f32` buffers. -/
def Vst.process (b : AudioBuffer F32) : List (List F32) :=
  processDefault b

/-- `lib.rs` 323-331: the default `Vst::process_f64` for `f64` buffers. -/
def Vst.process_f64 (b : AudioBuffer F64) : List (List F64) :=
  processDefault b

/-- The `Info` declared by the crate's own `TestPlugin` (`lib.rs` 386-403),
used as the concrete plugin of the witnesses. -/
def testInfo : Info :=
  { name := "Test Plugin"
    vendor := "overdrivenpotato"
    presets := 1
    parameters := 1
    inputs := 2
    outputs := 2
    unique_id := 5678
    version := 1234
    category := Category.Effect
    initial_delay := 123
    preset_chunks := false
    f64_precision := false }

/-- A concrete descriptor value for the dispatcher witnesses. -/
def eff0 : AEffect :=
  { magic := VST_MAGIC
    dispatcher := FnPtr.dispatch
    _process := FnPtr.process_deprecated
    setParameter := FnPtr.set_parameter
    getParameter := FnPtr.get_parameter
    numPrograms := 1
    numParams := 1
    numInputs := 2
    numOutputs := 2
    flags := CAN_REPLACING
    reserved1 := 0
    reserved2 := 0
    initialDelay := 123
    _realQualities := 0
    _offQualities := 0
    _ioRatio := 0
    object := some 1
    user := none
    uniqueId := 5678
    version := 1234
    processReplacing := FnPtr.process_replacing
    processReplacingF64 := FnPtr.process_replacing_f64
    future := List.replicate 56 0 }

/-- Helper: copying one channel onto another of the same length yields the
input channel verbatim. -/
theorem copyFrames_eq_of_length_eq {α : Type} (i o : List α)
    (h : i.length = o.length) : copyFrames i o = i := by
  unfold copyFrames
  rw [List.map_fst_zip i o h.le, h, List.drop_length, List.append_nil]

/-- Helper: the default processing body is the identity on the outputs when
the channel counts agree and every channel holds the same number of
frames. -/
theorem processDefault_eq_inputs {α : Type} (b : AudioBuffer α) (frames : Nat)
    (hch : b.inputs.length = b.outputs.length)
    (hin : ∀ ch ∈ b.inputs, ch.length = frames)
    (hout : ∀ ch ∈ b.outputs, ch.length = frames) :
    processDefault b = b.inputs := by
  obtain ⟨ins, outs⟩ := b
  simp only [processDefault, AudioBuffer.zip] at *
  induction ins generalizing outs with
  | nil =>
    simp only [List.length_nil] at hch
    have : outs = [] := List.length_eq_zero.mp hch.symm
    subst this
    simp
  | cons i ins ih =>
    cases outs with
    | nil => simp at hch
    | cons o outs =>
      simp only [List.zip_cons_cons, List.map_cons, List.length_cons, List.drop_succ_cons,
        List.cons_append]
      have hio : i.length = o.length := by
        rw [hin i (by simp), hout o (by simp)]
      rw [copyFrames_eq_of_length_eq i o hio,
        ih outs (by simpa using hch)
          (fun ch hc => hin ch (by simp [hc]))
          (fun ch hc => hout ch (by simp [hc]))]

/-- Claim C5: for a plugin that does not override the processing methods,
the default `process` (f32) and `process_f64` (f64) on a buffer with equal
input and output channel counts, each channel holding exactly the frame
count of samples, leave every output sample equal to the corresponding
input sample of the same channel and frame index: the whole output state
equals the input state, for both precisions. -/
theorem default_process_identity (b32 : AudioBuffer F32) (b64 : AudioBuffer F64)
    (frames32 frames64 : Nat)
    (hch32 : b32.inputs.length = b32.outputs.length)
    (hin32 : ∀ ch ∈ b32.inputs, ch.length = frames32)
    (hout32 : ∀ ch ∈ b32.outputs, ch.length = frames32)
    (hch64 : b64.inputs.length = b64.outputs.length)
    (hin64 : ∀ ch ∈ b64.inputs, ch.length = frames64)
    (hout64 : ∀ ch ∈ b64.outputs, ch.length = frames64) :
    Vst.process b32 = b32.inputs ∧ Vst.process_f64 b64 = b64.inputs :=
  ⟨processDefault_eq_inputs b32 frames32 hch32 hin32 hout32,
   processDefault_eq_inputs b64 frames64 hch64 hin64 hout64⟩

/-- Witness for C5 on a concrete two-channel, two-frame buffer. -/
theorem default_process_identity_witness :
    Vst.process ⟨[[1, 2], [3, 4]], [[0, 0], [0, 0]]⟩ = [[1, 2], [3, 4]] ∧
    Vst.process_f64 ⟨[[5, 6]], [[9, 9]]⟩ = [[5, 6]] :=
  default_process_identity ⟨[[1, 2], [3, 4]], [[0, 0], [0, 0]]⟩ ⟨[[5, 6]], [[9, 9]]⟩
    2 2 rfl (by decide) (by decide) rfl (by decide) (by decide)

/-- Claim C8: a plugin that does not override `can_do` answers
`Supported::Maybe` to every capability query. -/
theorem default_can_do_maybe {P : Type} [Inhabited P] (info : Info) (p : P)
    (c : CanDo) :
    (defaultVst P info).can_do p c = Supported.Maybe :=
  rfl

/-- Helper: the three-decimal formatting of the value 0 is "0.000". -/
theorem formatFixed3_zero : formatFixed3 0 = "0.000" := by
  unfold formatFixed3 ratTrunc
  norm_num
  rfl

/-- Claim C9: for every parameter index, a plugin that does not override
the parameter methods has `get_parameter` return 0.0, `set_parameter` a
no-op, and `get_parameter_text` return the current `get_parameter` value
formatted to three decimal places, hence the string "0.000". -/
theorem default_parameter_methods {P : Type} [Inhabited P] (info : Info)
    (p : P) (index : Int) (v : ℚ) :
    (defaultVst P info).get_parameter p index = 0 ∧
    (defaultVst P info).set_parameter p index v = p ∧
    (defaultVst P info).get_parameter_text p index =
      default_get_parameter_text (defaultVst P info).get_parameter p index ∧
    (defaultVst P info).get_parameter_text p index = "0.000" := by
  refine ⟨rfl, rfl, rfl, ?_⟩
  show formatFixed3 0 = "0.000"
  exact formatFixed3_zero

/-- Claim C10: a plugin type that does not override `new` is constructed as
`Default::default()`, so the constructed plugin state is identical for any
two host callbacks with nonzero reported protocol versions. -/
theorem default_new_ignores_host {P : Type} [Inhabited P] (h1 h2 : Host)
    (_hv1 : Host.vst_version h1 ≠ 0) (_hv2 : Host.vst_version h2 ≠ 0) :
    Vst.new P h1 = Vst.new P h2 :=
  rfl

/-- Witness for C10 with two distinct hosts of versions 1 and 2. -/
theorem default_new_ignores_host_witness :
    Vst.new Int { callback := fun _ => 1, effect := 0 } =
    Vst.new Int { callback := fun _ => 2, effect := 5 } :=
  default_new_ignores_host _ _ (by decide) (by decide)

/-- Claim C3 (code bug): calling `main` with a host callback reporting
protocol version 0 does return a null descriptor and never constructs the
plugin object, but partial state stays allocated: the zeroed descriptor
box was transmuted into a raw pointer before the version check and is
never freed on the early-return path, so the effect cell leaks. -/
theorem main_zero_version_null_but_leaks :
    (VSTPluginMain (defaultVst Unit testInfo) (fun _ => 0)).ret = none ∧
    (VSTPluginMain (defaultVst Unit testInfo) (fun _ => 0)).constructed = none ∧
    (VSTPluginMain (defaultVst Unit testInfo) (fun _ => 0)).live = [Alloc.effectCell] :=
  ⟨rfl, rfl, rfl⟩

/-- Claim C6: for every opcode value outside the recognized enumeration the
dispatcher returns 0, invokes no plugin method (no events), and leaves the
state unchanged. -/
theorem dispatch_unrecognized_neutral {P : Type} (V : VstClass P)
    (s : DispatchState P) (opcode index value : Int) (opt : ℚ) (payload : List Nat)
    (h : decode opcode = none) :
    dispatch V s opcode index value opt payload = (0, some s, []) := by
  unfold dispatch
  rw [h]

/-- Witness for C6 at the unrecognized opcode 9999. -/
theorem dispatch_unrecognized_witness :
    dispatch (defaultVst Unit testInfo) { effect := eff0, plugin := () } 9999 0 0 0 [] =
      (0, some { effect := eff0, plugin := () }, []) :=
  dispatch_unrecognized_neutral (defaultVst Unit testInfo)
    { effect := eff0, plugin := () } 9999 0 0 0 [] (by decide)

/-- Claim C7: dispatching the terminate opcode (numeric value 1) returns 0,
runs the plugin's teardown exactly once — the event trace of the call is
exactly one teardown and nothing after it — and leaves no surviving state
(descriptor and wrapper freed), so no plugin code runs after that point. -/
theorem dispatch_terminate_teardown_once {P : Type} (V : VstClass P)
    (s : DispatchState P) (index value : Int) (opt : ℚ) (payload : List Nat) :
    dispatch V s 1 index value opt payload = (0, none, [Event.teardown]) :=
  rfl

/-- Helper: a dispatcher call never modifies the descriptor record of a
surviving state. -/
theorem dispatch_preserves_effect {P : Type} (V : VstClass P) (s : DispatchState P)
    (opcode index value : Int) (opt : ℚ) (payload : List Nat) (s' : DispatchState P)
    (h : (dispatch V s opcode index value opt payload).2.1 = some s') :
    s'.effect = s.effect := by
  unfold dispatch at h
  rcases hdec : decode opcode with _ | op
  · rw [hdec] at h
    simp only [Option.some.injEq] at h
    subst h
    rfl
  · rw [hdec] at h
    cases op <;>
      first
        | (simp only [Option.some.injEq] at h; subst h; rfl)
        | (rcases eq_or_ne value 0 with hv | hv <;>
            (simp [hv] at h; subst h; rfl))
        | simp at h

/-- Helper: the magic constant evaluates to 0x56737450 ('V','s','t','P'). -/
theorem VST_MAGIC_eq : VST_MAGIC = 0x56737450 := by decide

/-- Claim C1: with a host callback reporting a nonzero protocol version,
`main` returns a non-null descriptor whose magic field is the fixed
constant 0x56737450 (ASCII V, s, t, P), `VST_MAGIC` itself equals that
constant, and the descriptor's magic is kept for the descriptor's
lifetime: no dispatcher call changes it while the state survives. -/
theorem main_magic_constant {P : Type} (V : VstClass P) (cb : HostCallback)
    (s : DispatchState P) (opcode index value : Int) (opt : ℚ) (payload : List Nat)
    (s' : DispatchState P)
    (hv : Host.vst_version (Host.wrap cb 0) ≠ 0)
    (hd : (dispatch V s opcode index value opt payload).2.1 = some s') :
    (∃ e, (VSTPluginMain V cb).ret = some e ∧ e.magic = 0x56737450) ∧
    VST_MAGIC = 0x56737450 ∧
    s'.effect.magic = s.effect.magic := by
  refine ⟨?_, VST_MAGIC_eq,
    congrArg AEffect.magic (dispatch_preserves_effect V s opcode index value opt payload s' hd)⟩
  simp only [VSTPluginMain]
  rw [if_neg hv]
  exact ⟨_, rfl, VST_MAGIC_eq⟩

/-- Witness for C1 with the crate's test plugin, a version-1 callback, and
a live-state dispatcher call at opcode 0. -/
theorem main_magic_constant_witness :
    (∃ e, (VSTPluginMain (defaultVst Unit testInfo) (fun _ => 1)).ret = some e ∧
      e.magic = 0x56737450) ∧
    VST_MAGIC = 0x56737450 ∧
    (DispatchState.mk (P := Unit) eff0 ()).effect.magic =
      (DispatchState.mk (P := Unit) eff0 ()).effect.magic :=
  main_magic_constant (defaultVst Unit testInfo) (fun _ => 1)
    { effect := eff0, plugin := () } 0 0 0 0 [] { effect := eff0, plugin := () }
    (by decide) rfl

/-- Claim C2: after a successful construction every count/identifier field
of the descriptor equals the matching field of the plugin's declared
`Info`, and every reserved/padding field is zeroed, including the trailing
56-byte reserved region (and the null `user` pointer). -/
theorem main_descriptor_fields_match_info {P : Type} (V : VstClass P)
    (cb : HostCallback) (hv : Host.vst_version (Host.wrap cb 0) ≠ 0) :
    ∃ e, (VSTPluginMain V cb).ret = some e ∧
      e.numPrograms = (V.get_info (V.new (Host.wrap cb 0))).presets ∧
      e.numParams = (V.get_info (V.new (Host.wrap cb 0))).parameters ∧
      e.numInputs = (V.get_info (V.new (Host.wrap cb 0))).inputs ∧
      e.numOutputs = (V.get_info (V.new (Host.wrap cb 0))).outputs ∧
      e.uniqueId = (V.get_info (V.new (Host.wrap cb 0))).unique_id ∧
      e.version = (V.get_info (V.new (Host.wrap cb 0))).version ∧
      e.initialDelay = (V.get_info (V.new (Host.wrap cb 0))).initial_delay ∧
      e.reserved1 = 0 ∧ e.reserved2 = 0 ∧
      e._realQualities = 0 ∧ e._offQualities = 0 ∧ e._ioRatio = 0 ∧
      e.user = none ∧ e.future = List.replicate 56 0 := by
  simp only [VSTPluginMain]
  rw [if_neg hv]
  exact ⟨_, rfl, rfl, rfl, rfl, rfl, rfl, rfl, rfl, rfl, rfl, rfl, rfl, rfl, rfl, rfl⟩

/-- Witness for C2 with the crate's test plugin and a version-1 callback. -/
theorem main_descriptor_fields_witness :
    ∃ e, (VSTPluginMain (defaultVst Unit testInfo) (fun _ => 1)).ret = some e ∧
      e.numPrograms = testInfo.presets ∧
      e.numParams = testInfo.parameters ∧
      e.numInputs = testInfo.inputs ∧
      e.numOutputs = testInfo.outputs ∧
      e.uniqueId = testInfo.unique_id ∧
      e.version = testInfo.version ∧
      e.initialDelay = testInfo.initial_delay ∧
      e.reserved1 = 0 ∧ e.reserved2 = 0 ∧
      e._realQualities = 0 ∧ e._offQualities = 0 ∧ e._ioRatio = 0 ∧
      e.user = none ∧ e.future = List.replicate 56 0 :=
  main_descriptor_fields_match_info (defaultVst Unit testInfo) (fun _ => 1) (by decide)

/-- Claim C4: the descriptor's capability flag word has the
replace-processing bit always set, the double-replace bit iff the declared
`f64_precision`, the editor bit iff `get_editor` returns `Some`, the chunk
bit iff `preset_chunks`, and the synth bit iff the declared category is
`Synth` — all computed once at construction from the declared `Info`. -/
theorem main_flags_bits {P : Type} (V : VstClass P) (cb : HostCallback)
    (hv : Host.vst_version (Host.wrap cb 0) ≠ 0) :
    ∃ e, (VSTPluginMain V cb).ret = some e ∧
      e.flags.testBit 4 = true ∧
      (e.flags.testBit 12 = true ↔
        (V.get_info (V.new (Host.wrap cb 0))).f64_precision = true) ∧
      (e.flags.testBit 0 = true ↔
        (V.get_editor (V.new (Host.wrap cb 0))).isSome = true) ∧
      (e.flags.testBit 5 = true ↔
        (V.get_info (V.new (Host.wrap cb 0))).preset_chunks = true) ∧
      (e.flags.testBit 8 = true ↔
        (V.get_info (V.new (Host.wrap cb 0))).category = Category.Synth) := by
  simp only [VSTPluginMain]
  rw [if_neg hv]
  refine ⟨_, rfl, ?_⟩
  cases hf : (V.get_info (V.new (Host.wrap cb 0))).f64_precision <;>
    cases he : (V.get_editor (V.new (Host.wrap cb 0))).isSome <;>
      cases hc : (V.get_info (V.new (Host.wrap cb 0))).preset_chunks <;>
        cases hcat : (V.get_info (V.new (Host.wrap cb 0))).category <;>
          simp [hf, he, hc, hcat, CAN_REPLACING, CAN_DOUBLE_REPLACING, HAS_EDITOR,
            PROGRAM_CHUNKS, IS_SYNTH] <;>
            decide

/-- Witness for C4 with the crate's test plugin and a version-1 callback. -/
theorem main_flags_bits_witness :
    ∃ e, (VSTPluginMain (defaultVst Unit testInfo) (fun _ => 1)).ret = some e ∧
      e.flags.testBit 4 = true ∧
      (e.flags.testBit 12 = true ↔ testInfo.f64_precision = true) ∧
      (e.flags.testBit 0 = true ↔ (none : Option Editor).isSome = true) ∧
      (e.flags.testBit 5 = true ↔ testInfo.preset_chunks = true) ∧
      (e.flags.testBit 8 = true ↔ testInfo.category = Category.Synth) :=
  main_flags_bits (defaultVst Unit testInfo) (fun _ => 1) (by decide)
